import Mathlib

/-!
# Verification of the sjw unit bridge (`src/sjw/app.py`)

A shallow embedding of the bridge between a local service manager (systemd
over D-Bus) and a remote WAMP router, as implemented in `sjw/app.py`.

Modelling decisions:

* Python `dict`s are embedded as association lists (`List (String × α)`)
  with Python semantics: `alGet?` returns the first binding, `alSet`
  replaces in place when the key exists and appends otherwise (so insertion
  order is preserved, exactly as in CPython).
* D-Bus property values are modelled as `String`; a property map
  (`GetAll` result, `PropertiesChanged` delta) is `PropMap`.
* The D-Bus connection is an oracle (`Bus`): one field per remote method
  the code calls, each returning `Except String α` (`.error` models a
  raised D-Bus exception, the message being the payload).
* Python exceptions are `AppError`: `keyError k` models a `KeyError`
  raised by a direct `dict[...]` subscript, `busError e` a propagated
  D-Bus failure.
* Each `App` coroutine becomes a function threading `AppState`
  explicitly; a function that can raise returns the state as mutated up
  to the point of the raise, paired with `Option AppError` (or
  `Except AppError` for the result of an RPC endpoint).
-/

set_option autoImplicit false

namespace Sjw

/-- Python-dict lookup on an association list: first binding wins
(a real Python dict has unique keys, so this is exact). -/
def alGet? {α : Type} : List (String × α) → String → Option α
  | [], _ => none
  | (a, v) :: rest, k => if a = k then some v else alGet? rest k

/-- Python-dict assignment `d[k] = v`: replace the first binding in place
if the key is present, otherwise append (CPython insertion order). -/
def alSet {α : Type} : List (String × α) → String → α → List (String × α)
  | [], k, v => [(k, v)]
  | (a, w) :: rest, k, v =>
      if a = k then (a, v) :: rest else (a, w) :: alSet rest k v

/-- A D-Bus property map or property-change delta (`GetAll` result /
`PropertiesChanged` payload): property name to value. -/
abbrev PropMap := List (String × String)

/-- Python `dict.update`: fold the delta's bindings into the map, left to
right, overwriting on key collision. -/
def dictUpdate (m : PropMap) (delta : PropMap) : PropMap :=
  delta.foldl (fun acc kv => alSet acc kv.1 kv.2) m

/-- The `Unit` named tuple of `app.py`: the flattened snapshot the bridge
keeps per tracked unit. -/
structure Unit where
  name : String
  description : String
  active : String
  sub : String
  enabled : String
deriving DecidableEq, Repr

/-- The mutable fields of `App` that hold mirror state: `self.units`,
`self.units_name` (the catalog from the config, read-only after
construction), `self.units_path` and `self.properties`. -/
structure AppState where
  units : List (String × Sjw.Unit)
  units_name : List (String × String)
  units_path : List (String × String)
  properties : List (String × PropMap)
deriving DecidableEq, Repr

/-- Python exceptions the `App` methods can raise: `KeyError` from a
direct dict subscript (the spec's `UnknownUnitKey`), or a propagated
D-Bus call failure (the spec's `BusCallFailed`). -/
inductive AppError where
  | keyError (k : String)
  | busError (e : String)
deriving DecidableEq, Repr

/-- One remote D-Bus method invocation issued on `self.systemd_dbus`,
recorded for the call logs of the lifecycle operations. -/
inductive BusCall where
  | startUnit (name mode : String)
  | stopUnit (name mode : String)
  | enableUnitFiles (names : List String) (runtime force : Bool)
  | disableUnitFiles (names : List String) (runtime : Bool)
  | reload
deriving DecidableEq, Repr

/-- The D-Bus oracle: one field per remote method `app.py` calls.
`loadUnit` maps a unit name to an object path, `getAll` an object path to
its property map; the remaining fields return the manager's result
(job object path etc.). `.error e` models a raised D-Bus exception. -/
structure Bus where
  loadUnit : String → Except String String
  getAll : String → Except String PropMap
  callStart : String → String → Except String String
  callStop : String → String → Except String String
  callEnable : List String → Bool → Bool → Except String String
  callDisable : List String → Bool → Except String String
  callReload : Except String String

/-- A WAMP publication: topic and payload, as produced by
`session.publish('sjw.unit.' + unit, props)`. -/
abbrev Publication := String × PropMap

/-- `WAMPApplication.on_unit_changed`: if no WAMP session is attached
(`self.wamp_session` is `None`), return without publishing; otherwise
publish the delta verbatim on `sjw.unit.` + the given unit key.
The session handle is opaque, modelled as `Nat`. -/
def on_unit_changed (wamp_session : Option Nat) (unit : String)
    (props : PropMap) : List Publication :=
  match wamp_session with
  | none => []
  | some _ => [("sjw.unit." ++ unit, props)]

/-- The mirror mutation of the `unit_changed` callback body:
`self.properties.setdefault(unit_key, {}).update(changed)` — fetch the
snapshot for `unit_key`, inserting an empty one if absent, and merge the
delta into it. -/
def unit_changed_apply (properties : List (String × PropMap))
    (unit_key : String) (changed : PropMap) : List (String × PropMap) :=
  alSet properties unit_key (dictUpdate ((alGet? properties unit_key).getD []) changed)

/-- The `unit_changed` callback defined inside `subscribe_props_units`,
run with a given value of its closed-over `unit_key` variable: merge the
delta into `self.properties[unit_key]` (via `setdefault`), then call
`self.wamp.on_unit_changed(unit_key, changed)`. -/
def unit_changed (st : AppState) (wamp_session : Option Nat)
    (unit_key : String) (changed : PropMap) : AppState × List Publication :=
  ({ st with properties := unit_changed_apply st.properties unit_key changed },
   on_unit_changed wamp_session unit_key changed)

/-- Delivery of a `PropertiesChanged` signal from the unit tracked under
`source_key`, after `subscribe_props_units` has completed.

`subscribe_props_units` registers, on each tracked unit's D-Bus object,
the callback `unit_changed` — a closure over the loop variable
`unit_key`. Python closures capture the variable, not its value, and all
iterations share the one `unit_key` binding of the enclosing function
scope; once the loop has finished, that variable holds the key of the
last `self.units_path.items()` iteration. So whichever unit's object
emits the signal, the callback body runs with `unit_key` equal to the
last tracked key. A signal from an untracked object has no registered
callback and does nothing. -/
def deliver_signal (st : AppState) (wamp_session : Option Nat)
    (source_key : String) (changed : PropMap) : AppState × List Publication :=
  match alGet? st.units_path source_key with
  | none => (st, [])
  | some _ =>
      match (st.units_path.map Prod.fst).getLast? with
      | none => (st, [])
      | some last_key => unit_changed st wamp_session last_key changed

/-- `App.start`: look up the unit name in `self.units_name` (a `KeyError`
propagates if the key is untracked, before any bus call), then issue
`StartUnit(name, 'replace')` and return the manager's result verbatim.
Returns the issued bus calls, the (unchanged) state, and the result. -/
def start (bus : Bus) (st : AppState) (unit_key : String) :
    List BusCall × AppState × Except AppError String :=
  match alGet? st.units_name unit_key with
  | none => ([], st, .error (.keyError unit_key))
  | some unit_name =>
      match bus.callStart unit_name "replace" with
      | .error e => ([.startUnit unit_name "replace"], st, .error (.busError e))
      | .ok result => ([.startUnit unit_name "replace"], st, .ok result)

/-- `App.stop`: as `start`, but issuing `StopUnit(name, 'replace')`. -/
def stop (bus : Bus) (st : AppState) (unit_key : String) :
    List BusCall × AppState × Except AppError String :=
  match alGet? st.units_name unit_key with
  | none => ([], st, .error (.keyError unit_key))
  | some unit_name =>
      match bus.callStop unit_name "replace" with
      | .error e => ([.stopUnit unit_name "replace"], st, .error (.busError e))
      | .ok result => ([.stopUnit unit_name "replace"], st, .ok result)

/-- `App.enable`: resolve the name, issue
`EnableUnitFiles([name], False, True)`, then `Reload`, and return the
`EnableUnitFiles` result (not the reload's). A failure at any call
propagates and aborts the rest. -/
def enable (bus : Bus) (st : AppState) (unit_key : String) :
    List BusCall × AppState × Except AppError String :=
  match alGet? st.units_name unit_key with
  | none => ([], st, .error (.keyError unit_key))
  | some unit_name =>
      match bus.callEnable [unit_name] false true with
      | .error e => ([.enableUnitFiles [unit_name] false true], st, .error (.busError e))
      | .ok result =>
          match bus.callReload with
          | .error e =>
              ([.enableUnitFiles [unit_name] false true, .reload], st, .error (.busError e))
          | .ok _ =>
              ([.enableUnitFiles [unit_name] false true, .reload], st, .ok result)

/-- `App.disable`: resolve the name, issue
`DisableUnitFiles([name], False)`, then `Reload`, and return the
`DisableUnitFiles` result. -/
def disable (bus : Bus) (st : AppState) (unit_key : String) :
    List BusCall × AppState × Except AppError String :=
  match alGet? st.units_name unit_key with
  | none => ([], st, .error (.keyError unit_key))
  | some unit_name =>
      match bus.callDisable [unit_name] false with
      | .error e => ([.disableUnitFiles [unit_name] false], st, .error (.busError e))
      | .ok result =>
          match bus.callReload with
          | .error e =>
              ([.disableUnitFiles [unit_name] false, .reload], st, .error (.busError e))
          | .ok _ =>
              ([.disableUnitFiles [unit_name] false, .reload], st, .ok result)

/-- The guard `if not filter_keys or key in filter_keys` of
`App.refresh_units`: Python treats both `None` and an empty list as
falsy, so either selects every key. -/
def filterPass (filter_keys : Option (List String)) (key : String) : Bool :=
  match filter_keys with
  | none => true
  | some fk => fk.isEmpty || fk.contains key

/-- The loop body of `App.refresh_units`, iterating over the
`self.units_name.items()` pairs: for each selected key, call
`LoadUnit(unit_name)` and store the path in `self.units_path[key]`, call
`GetAll('')` on that object and store the result in
`self.properties[key]`, then build the `Unit` named tuple (each field
subscript raises `KeyError` if the property is missing) and store it in
`self.units[key]`. An exception stops the loop, keeping the mutations
made so far. -/
def refresh_units_go (bus : Bus) (filter_keys : Option (List String)) :
    List (String × String) → AppState → AppState × Option AppError
  | [], st => (st, none)
  | (key, unit_name) :: rest, st =>
      if filterPass filter_keys key then
        match bus.loadUnit unit_name with
        | .error e => (st, some (.busError e))
        | .ok path =>
            let st1 := { st with units_path := alSet st.units_path key path }
            match bus.getAll path with
            | .error e => (st1, some (.busError e))
            | .ok props =>
                let st2 := { st1 with properties := alSet st1.properties key props }
                match alGet? props "Description" with
                | none => (st2, some (.keyError "Description"))
                | some description =>
                    match alGet? props "ActiveState" with
                    | none => (st2, some (.keyError "ActiveState"))
                    | some active =>
                        match alGet? props "SubState" with
                        | none => (st2, some (.keyError "SubState"))
                        | some sub =>
                            match alGet? props "UnitFileState" with
                            | none => (st2, some (.keyError "UnitFileState"))
                            | some enabled =>
                                let u : Sjw.Unit :=
                                  ⟨unit_name, description, active, sub, enabled⟩
                                let st3 := { st2 with units := alSet st2.units key u }
                                refresh_units_go bus filter_keys rest st3
      else refresh_units_go bus filter_keys rest st

/-- `App.refresh_units`: iterate the catalog `self.units_name`. -/
def refresh_units (bus : Bus) (filter_keys : Option (List String))
    (st : AppState) : AppState × Option AppError :=
  refresh_units_go bus filter_keys st.units_name st

/-- The loop of `App.refresh_unit_properties`: for each requested key,
subscript `self.units_path[unit_key]` (raising `KeyError` when the key is
untracked), call `GetAll('')` on that object and store the result in
`self.properties[unit_key]`. -/
def refresh_unit_props_go (bus : Bus) :
    List String → AppState → AppState × Option AppError
  | [], st => (st, none)
  | unit_key :: rest, st =>
      match alGet? st.units_path unit_key with
      | none => (st, some (.keyError unit_key))
      | some path =>
          match bus.getAll path with
          | .error e => (st, some (.busError e))
          | .ok props =>
              refresh_unit_props_go bus rest
                { st with properties := alSet st.properties unit_key props }

/-- `App.refresh_unit_properties`: default `unit_keys` to all of
`self.units_path.keys()` when `None` or empty, then run the loop. -/
def refresh_unit_properties (bus : Bus) (unit_keys : Option (List String))
    (st : AppState) : AppState × Option AppError :=
  let keys := match unit_keys with
    | none => st.units_path.map Prod.fst
    | some ks => if ks.isEmpty then st.units_path.map Prod.fst else ks
  refresh_unit_props_go bus keys st

/-- `App.query(*unit_keys)`: default the key tuple to `self.units_path`
(iterated as its keys) when empty, `await refresh_unit_properties(keys)`
(an exception there propagates to the caller), then return
`{k: self.properties[k] for k in keys if k in self.properties}`. -/
def query (bus : Bus) (st : AppState) (unit_keys : List String) :
    AppState × Except AppError (List (String × PropMap)) :=
  let keys := if unit_keys.isEmpty then st.units_path.map Prod.fst else unit_keys
  match refresh_unit_props_go bus keys st with
  | (st1, some e) => (st1, .error e)
  | (st1, none) =>
      (st1, .ok (keys.filterMap (fun k =>
        (alGet? st1.properties k).map (fun p => (k, p)))))

/-- Observable startup events of `App.main_loop`, in the order the
coroutine awaits them. -/
inductive Ev where
  /-- the one-time `Subscribe` call on the systemd manager object -/
  | lifecycleSub
  /-- `LoadUnit` for one catalog key (inside `refresh_units`) -/
  | loadUnit (key : String)
  /-- a `GetAll` properties fetch for one key (population) -/
  | fetchProps (key : String)
  /-- `notifyOnSignal('PropertiesChanged', ...)` for one key
      (inside `subscribe_props_units`) -/
  | subscribeUnit (key : String)
  /-- `self.wamp.start(reactor)`: the WAMP component is started -/
  | wampStart
deriving DecidableEq, Repr

/-- Is this event part of population (a fetch of unit identity or
properties)? -/
def Ev.isPopulate : Ev → Bool
  | .loadUnit _ => true
  | .fetchProps _ => true
  | _ => false

/-- Is this event the registration of a per-unit property-change
subscription? -/
def Ev.isUnitSub : Ev → Bool
  | .subscribeUnit _ => true
  | _ => false

/-- The bus events emitted by `refresh_units` on its success path, in
order: per catalog pair, `LoadUnit` then `GetAll`. -/
def refresh_units_trace : List (String × String) → List Ev
  | [] => []
  | (key, _) :: rest => .loadUnit key :: .fetchProps key :: refresh_units_trace rest

/-- The events emitted by `refresh_unit_properties`, in order: one
`GetAll` per key. -/
def refresh_props_trace (keys : List String) : List Ev :=
  keys.map Ev.fetchProps

/-- The events emitted by `subscribe_props_units`, in order: one signal
subscription per key of `self.units_path`. -/
def subscribe_trace (keys : List String) : List Ev :=
  keys.map Ev.subscribeUnit

/-- The event trace of `App.main_loop` on its success path. The coroutine
awaits each step before starting the next, so the trace is the
concatenation, in program order, of: the `Subscribe` call, the
`refresh_units()` events, the `refresh_unit_properties()` events (over
the keys `refresh_units` just stored in `self.units_path`, i.e. the
catalog keys), the `subscribe_props_units()` registrations, and the
`self.wamp.start(reactor)` call. -/
def main_loop_trace (catalog : List (String × String)) : List Ev :=
  [Ev.lifecycleSub] ++ refresh_units_trace catalog
    ++ refresh_props_trace (catalog.map Prod.fst)
    ++ subscribe_trace (catalog.map Prod.fst)
    ++ [Ev.wampStart]

@[simp]
theorem filterPass_none (key : String) : filterPass none key = true := rfl

theorem alGet_alSet_self {α : Type} (m : List (String × α)) (k : String) (v : α) :
    alGet? (alSet m k v) k = some v := by
  induction m with
  | nil => simp [alSet, alGet?]
  | cons hd tl ih =>
      obtain ⟨a, w⟩ := hd
      by_cases h : a = k
      · simp [alSet, alGet?, h]
      · simp [alSet, alGet?, h, ih]

theorem alGet_alSet_ne {α : Type} (m : List (String × α)) (k k' : String) (v : α)
    (h : k ≠ k') : alGet? (alSet m k v) k' = alGet? m k' := by
  induction m with
  | nil => simp [alSet, alGet?, h]
  | cons hd tl ih =>
      obtain ⟨a, w⟩ := hd
      by_cases ha : a = k
      · subst ha; simp [alSet, alGet?, h]
      · simp [alSet, alGet?, ha, ih]

theorem alGet_alSet {α : Type} (m : List (String × α)) (k : String) (v : α)
    (q : String) :
    alGet? (alSet m k v) q = if k = q then some v else alGet? m q := by
  by_cases h : k = q
  · subst h; simp [alGet_alSet_self]
  · simp [h, alGet_alSet_ne m k q v h]

theorem dictUpdate_single (m : PropMap) (p v : String) :
    dictUpdate m [(p, v)] = alSet m p v := rfl

/-- `refresh_units_go` never touches the `units` entry of a key that is
not in the portion of the catalog it iterates. -/
theorem refresh_units_go_units_frame (bus : Bus) (fk : Option (List String)) :
    ∀ (l : List (String × String)) (st : AppState) (k : String),
      k ∉ l.map Prod.fst →
      alGet? (refresh_units_go bus fk l st).1.units k = alGet? st.units k := by
  intro l
  induction l with
  | nil => intro st k _; rfl
  | cons hd tl ih =>
      intro st k hk
      obtain ⟨key, name⟩ := hd
      simp only [List.map_cons, List.mem_cons, not_or] at hk
      obtain ⟨hkey, htl⟩ := hk
      unfold refresh_units_go
      split
      · split
        · rfl
        · split
          · rfl
          · split
            · rfl
            · split
              · rfl
              · split
                · rfl
                · split
                  · rfl
                  · rw [ih _ _ htl]
                    exact alGet_alSet_ne _ key k _ (Ne.symm hkey)
      · exact ih st k htl

/-- Core of C7: a successful full run of the `refresh_units` loop stores,
for each catalog pair it iterates, a `Unit` snapshot whose `name` field is
that pair's service name. -/
theorem refresh_units_go_names (bus : Bus) :
    ∀ (l : List (String × String)) (st st' : AppState),
      (l.map Prod.fst).Nodup →
      refresh_units_go bus none l st = (st', none) →
      ∀ k n, alGet? l k = some n →
      ∃ u, alGet? st'.units k = some u ∧ u.name = n := by
  intro l
  induction l with
  | nil => intro st st' _ _ k n hk; simp [alGet?] at hk
  | cons hd tl ih =>
      intro st st' hnd hrun k n hk
      obtain ⟨key, name⟩ := hd
      simp only [List.map_cons, List.nodup_cons] at hnd
      obtain ⟨hknotin, hndtl⟩ := hnd
      unfold refresh_units_go at hrun
      rw [filterPass_none, if_pos rfl] at hrun
      cases hload : bus.loadUnit name with
      | error e => simp [hload] at hrun
      | ok path =>
          simp only [hload] at hrun
          cases hget : bus.getAll path with
          | error e => simp [hget] at hrun
          | ok props =>
              simp only [hget] at hrun
              cases hdesc : alGet? props "Description" with
              | none => simp [hdesc] at hrun
              | some description =>
                  simp only [hdesc] at hrun
                  cases hact : alGet? props "ActiveState" with
                  | none => simp [hact] at hrun
                  | some active =>
                      simp only [hact] at hrun
                      cases hsub : alGet? props "SubState" with
                      | none => simp [hsub] at hrun
                      | some sub =>
                          simp only [hsub] at hrun
                          cases henab : alGet? props "UnitFileState" with
                          | none => simp [henab] at hrun
                          | some enabled =>
                              simp only [henab] at hrun
                              by_cases hkk : key = k
                              · subst hkk
                                have hnn : name = n := by
                                  simpa [alGet?] using hk
                                subst hnn
                                have hframe := refresh_units_go_units_frame bus none tl
                                  ⟨alSet st.units key ⟨name, description, active, sub, enabled⟩,
                                   st.units_name, alSet st.units_path key path,
                                   alSet st.properties key props⟩ key hknotin
                                rw [hrun] at hframe
                                refine ⟨⟨name, description, active, sub, enabled⟩, ?_, rfl⟩
                                rw [hframe]
                                exact alGet_alSet_self _ key _
                              · have hk' : alGet? tl k = some n := by
                                  simpa [alGet?, hkk] using hk
                                exact ih _ st' hndtl hrun k n hk'

/-- Property map of a healthy demo unit, carrying all five fields the
`Unit` named tuple subscripts. -/
def demoProps : PropMap :=
  [("Description", "web server"), ("ActiveState", "active"),
   ("SubState", "running"), ("UnitFileState", "enabled")]

/-- Property map of a second, stopped demo unit. -/
def demoDbProps : PropMap :=
  [("Description", "database"), ("ActiveState", "inactive"),
   ("SubState", "dead"), ("UnitFileState", "disabled")]

/-- A fully populated two-unit state, as it stands after a successful
startup over the catalog `{web: nginx.service, db: postgresql.service}`. -/
def demoSt : AppState where
  units := [("web", ⟨"nginx.service", "web server", "active", "running", "enabled"⟩),
            ("db", ⟨"postgresql.service", "database", "inactive", "dead", "disabled"⟩)]
  units_name := [("web", "nginx.service"), ("db", "postgresql.service")]
  units_path := [("web", "/org/freedesktop/systemd1/unit/web"),
                 ("db", "/org/freedesktop/systemd1/unit/db")]
  properties := [("web", demoProps), ("db", demoDbProps)]

/-- A fresh state before population, over a one-unit catalog. -/
def demoSt0 : AppState where
  units := []
  units_name := [("web", "nginx.service")]
  units_path := []
  properties := []

/-- A bus oracle on which every call succeeds, with distinguishable
results per method. -/
def demoBus : Bus where
  loadUnit := fun name => .ok ("/unit/" ++ name)
  getAll := fun _ => .ok demoProps
  callStart := fun _ _ => .ok "/job/1"
  callStop := fun _ _ => .ok "/job/2"
  callEnable := fun _ _ _ => .ok "enable-changes"
  callDisable := fun _ _ => .ok "disable-changes"
  callReload := .ok "reload-done"

/-- C2: with no WAMP session attached (`self.wamp_session is None`),
`on_unit_changed` publishes nothing and returns; with a session attached
it performs exactly one publication, on the topic `sjw.unit.` + the unit
key, carrying the delta verbatim. -/
theorem c2_notify_gating (unit : String) (props : PropMap) :
    on_unit_changed none unit props = [] ∧
    ∀ s : Nat, on_unit_changed (some s) unit props = [("sjw.unit." ++ unit, props)] :=
  ⟨rfl, fun _ => rfl⟩

/-- C4 counterexample: applying a change-signal delta to a key with no
stored snapshot does not drop it — `setdefault(unit_key, {}).update(...)`
creates a snapshot entry holding exactly the delta. -/
theorem c4_apply_delta_unknown_cex :
    alGet? (unit_changed_apply [] "web" [("ActiveState", "active")]) "web"
      = some [("ActiveState", "active")] := by decide

/-- C4 (amended): applying a change-signal delta to a key `k` with no
existing snapshot raises no error; it silently creates a snapshot entry
for `k` containing exactly the delta's bindings. -/
theorem c4_apply_delta_unknown_creates (properties : List (String × PropMap))
    (k : String) (d : PropMap) (h : alGet? properties k = none) :
    alGet? (unit_changed_apply properties k d) k = some (dictUpdate [] d) := by
  unfold unit_changed_apply
  rw [h]
  exact alGet_alSet_self properties k _

/-- C4 witness: the amended statement at a concrete empty mirror. -/
theorem c4_witness :
    alGet? ([] : List (String × PropMap)) "web" = none ∧
    alGet? (unit_changed_apply [] "web" [("ActiveState", "active")]) "web"
      = some (dictUpdate [] [("ActiveState", "active")]) :=
  ⟨rfl, c4_apply_delta_unknown_creates [] "web" [("ActiveState", "active")] rfl⟩

/-- C5: `start`/`stop` on a key absent from the catalog raise `KeyError`
before any bus call is issued; on a present key they resolve the service
name, issue exactly the one `StartUnit`/`StopUnit` call with `replace`
semantics, and return the manager's result verbatim (bus failures
propagated). -/
theorem c5_start_stop_contract (bus : Bus) (st : AppState) (k n r e : String) :
    (alGet? st.units_name k = none →
      start bus st k = ([], st, Except.error (AppError.keyError k)) ∧
      stop bus st k = ([], st, Except.error (AppError.keyError k))) ∧
    (alGet? st.units_name k = some n →
      ((bus.callStart n "replace" = Except.ok r →
          start bus st k = ([BusCall.startUnit n "replace"], st, Except.ok r)) ∧
       (bus.callStart n "replace" = Except.error e →
          start bus st k = ([BusCall.startUnit n "replace"], st,
            Except.error (AppError.busError e))) ∧
       (bus.callStop n "replace" = Except.ok r →
          stop bus st k = ([BusCall.stopUnit n "replace"], st, Except.ok r)) ∧
       (bus.callStop n "replace" = Except.error e →
          stop bus st k = ([BusCall.stopUnit n "replace"], st,
            Except.error (AppError.busError e))))) := by
  constructor
  · intro h
    exact ⟨by simp [start, h], by simp [stop, h]⟩
  · intro h
    refine ⟨fun hc => ?_, fun hc => ?_, fun hc => ?_, fun hc => ?_⟩ <;>
      simp [start, stop, h, hc]

/-- C5 witness: a missing key raises with no bus call; a present key
issues the start call and returns the job path verbatim. -/
theorem c5_witness :
    start demoBus demoSt "missing" = ([], demoSt, Except.error (AppError.keyError "missing")) ∧
    start demoBus demoSt "web"
      = ([BusCall.startUnit "nginx.service" "replace"], demoSt, Except.ok "/job/1") :=
  ⟨((c5_start_stop_contract demoBus demoSt "missing" "n" "r" "e").1 (by decide)).1,
   (((c5_start_stop_contract demoBus demoSt "web" "nginx.service" "/job/1" "e").2
      (by decide)).1 rfl)⟩

/-- C6: on a catalog key, `enable`/`disable` issue the file-enablement
call for the resolved service name followed by a `Reload` call before
returning, and return the enablement call's result — not the reload's
(the two results `r` and `r2` are independent below). -/
theorem c6_enable_disable_contract (bus : Bus) (st : AppState) (k n r r2 : String)
    (hk : alGet? st.units_name k = some n) :
    (bus.callEnable [n] false true = Except.ok r → bus.callReload = Except.ok r2 →
      enable bus st k = ([BusCall.enableUnitFiles [n] false true, BusCall.reload],
        st, Except.ok r)) ∧
    (bus.callDisable [n] false = Except.ok r → bus.callReload = Except.ok r2 →
      disable bus st k = ([BusCall.disableUnitFiles [n] false, BusCall.reload],
        st, Except.ok r)) := by
  constructor
  · intro h1 h2; simp [enable, hk, h1, h2]
  · intro h1 h2; simp [disable, hk, h1, h2]

/-- C6 witness: on the demo bus the reload result differs from the
enablement result, and the latter is what is returned. -/
theorem c6_witness :
    enable demoBus demoSt "web"
      = ([BusCall.enableUnitFiles ["nginx.service"] false true, BusCall.reload],
         demoSt, Except.ok "enable-changes") ∧
    disable demoBus demoSt "web"
      = ([BusCall.disableUnitFiles ["nginx.service"] false, BusCall.reload],
         demoSt, Except.ok "disable-changes") :=
  ⟨(c6_enable_disable_contract demoBus demoSt "web" "nginx.service"
      "enable-changes" "reload-done" (by decide)).1 rfl rfl,
   (c6_enable_disable_contract demoBus demoSt "web" "nginx.service"
      "disable-changes" "reload-done" (by decide)).2 rfl rfl⟩

/-- C10: the four lifecycle operations only talk to the bus; the mirror
state (`units`, `units_name`, `units_path`, `properties`) after any of
them — on every path, including lookup failure and bus errors — is the
state they started from. -/
theorem c10_lifecycle_ops_preserve_mirror (bus : Bus) (st : AppState) (k : String) :
    (start bus st k).2.1 = st ∧ (stop bus st k).2.1 = st ∧
    (enable bus st k).2.1 = st ∧ (disable bus st k).2.1 = st := by
  refine ⟨?_, ?_, ?_, ?_⟩
  · unfold start; repeat' split
    all_goals rfl
  · unfold stop; repeat' split
    all_goals rfl
  · unfold enable; repeat' split
    all_goals rfl
  · unfold disable; repeat' split
    all_goals rfl

/-- C8: applying a single-property delta `{p: v}` to a key with an
existing snapshot `m` yields a snapshot equal to `m` with exactly `p`
overwritten to `v` and every other property unchanged. -/
theorem c8_apply_delta_roundtrip (properties : List (String × PropMap))
    (k p v : String) (m : PropMap) (h : alGet? properties k = some m) :
    ∃ m', alGet? (unit_changed_apply properties k [(p, v)]) k = some m' ∧
      ∀ q, alGet? m' q = if p = q then some v else alGet? m q := by
  refine ⟨alSet m p v, ?_, ?_⟩
  · unfold unit_changed_apply
    rw [h]
    exact alGet_alSet_self properties k _
  · intro q
    exact alGet_alSet m p v q

/-- C8 witness: the round-trip at a concrete populated mirror. -/
theorem c8_witness :
    ∃ m', alGet? (unit_changed_apply demoSt.properties "web"
        [("ActiveState", "failed")]) "web" = some m' ∧
      ∀ q, alGet? m' q = if "ActiveState" = q then some "failed" else alGet? demoProps q :=
  c8_apply_delta_roundtrip demoSt.properties "web" "ActiveState" "failed" demoProps (by decide)

/-- C1, evaluated at the failing input: on the two-unit catalog
`{web, db}` (subscription loop iterating `web` then `db`), a
`PropertiesChanged` signal emitted by the `web` unit after startup is
routed to `db` — the late-bound closure variable `unit_key` holds the
last loop key. The delta is merged into the snapshot stored under `db`,
`web`'s snapshot is untouched, and the publication goes out on
`sjw.unit.db`. -/
theorem c1_closure_misroutes :
    (deliver_signal demoSt (some 1) "web" [("ActiveState", "failed")]).2
      = [("sjw.unit.db", [("ActiveState", "failed")])] ∧
    alGet? (deliver_signal demoSt (some 1) "web" [("ActiveState", "failed")]).1.properties "web"
      = some demoProps ∧
    alGet? (deliver_signal demoSt (some 1) "web" [("ActiveState", "failed")]).1.properties "db"
      = some (alSet demoDbProps "ActiveState" "failed") := by
  refine ⟨?_, ?_, ?_⟩ <;> decide

/-- C3 counterexample: on the populated demo state, `query` of a single
untracked key does not return an empty mapping — it raises `KeyError`
from the `self.units_path[unit_key]` subscript inside
`refresh_unit_properties`. -/
theorem c3_query_unknown_cex :
    (query demoBus demoSt ["nonexistent-key"]).2
      = Except.error (AppError.keyError "nonexistent-key") := by rfl

/-- C3 (amended): for a key `k` with no stored object path (any
untracked key), `query(k)` raises `KeyError(k)` during the property
re-fetch and returns no mapping; the mirror is left unchanged. -/
theorem c3_query_unknown_raises (bus : Bus) (st : AppState) (k : String)
    (h : alGet? st.units_path k = none) :
    query bus st [k] = (st, Except.error (AppError.keyError k)) := by
  unfold query
  simp [refresh_unit_props_go, h]

/-- C3 witness: the amended statement at the concrete untracked key. -/
theorem c3_witness :
    alGet? demoSt.units_path "nonexistent-key" = none ∧
    query demoBus demoSt ["nonexistent-key"]
      = (demoSt, Except.error (AppError.keyError "nonexistent-key")) :=
  ⟨by decide, c3_query_unknown_raises demoBus demoSt "nonexistent-key" (by decide)⟩

/-- C7: after a successful full population (`refresh_units` with no
filter returning no error), every catalog key's stored snapshot has its
`name` field equal to the service name the catalog maps it to. -/
theorem c7_populate_names (bus : Bus) (st st' : AppState)
    (hnd : (st.units_name.map Prod.fst).Nodup)
    (hrun : refresh_units bus none st = (st', none))
    (k n : String) (hk : alGet? st.units_name k = some n) :
    ∃ u, alGet? st'.units k = some u ∧ u.name = n :=
  refresh_units_go_names bus st.units_name st st' hnd hrun k n hk

/-- C7 witness: populating the fresh one-unit state on the demo bus
stores a snapshot for `web` named `nginx.service`. -/
theorem c7_witness :
    ∃ u, alGet? (refresh_units demoBus none demoSt0).1.units "web" = some u ∧
      u.name = "nginx.service" :=
  c7_populate_names demoBus demoSt0 (refresh_units demoBus none demoSt0).1
    (by decide) (by decide) "web" "nginx.service" (by decide)

theorem mem_refresh_units_trace (c : List (String × String)) (e : Ev)
    (h : e ∈ refresh_units_trace c) : e.isPopulate = true := by
  induction c with
  | nil => simp [refresh_units_trace] at h
  | cons hd tl ih =>
      obtain ⟨key, name⟩ := hd
      simp only [refresh_units_trace, List.mem_cons] at h
      rcases h with h | h | h
      · subst h; rfl
      · subst h; rfl
      · exact ih h

theorem mem_refresh_props_trace (ks : List String) (e : Ev)
    (h : e ∈ refresh_props_trace ks) : e.isPopulate = true := by
  obtain ⟨k, _, rfl⟩ := List.mem_map.1 h
  rfl

theorem mem_subscribe_trace (ks : List String) (e : Ev)
    (h : e ∈ subscribe_trace ks) : e.isUnitSub = true := by
  obtain ⟨k, _, rfl⟩ := List.mem_map.1 h
  rfl

theorem isPopulate_shape (e : Ev) (h : e.isPopulate = true) :
    e ≠ Ev.lifecycleSub ∧ e.isUnitSub = false ∧ e ≠ Ev.wampStart := by
  cases e <;> simp_all [Ev.isPopulate, Ev.isUnitSub]

theorem isUnitSub_shape (e : Ev) (h : e.isUnitSub = true) :
    e ≠ Ev.lifecycleSub ∧ e.isPopulate = false ∧ e ≠ Ev.wampStart := by
  cases e <;> simp_all [Ev.isPopulate, Ev.isUnitSub]

theorem mem_of_idx {α : Type} (l : List α) (n : Nat) (e : α)
    (h : l[n]? = some e) : e ∈ l := by
  induction l generalizing n with
  | nil => simp at h
  | cons a tl ih =>
      cases n with
      | zero => simp_all
      | succ m =>
          simp only [List.getElem?_cons_succ] at h
          exact List.mem_cons_of_mem a (ih m h)

/-- If a trace splits as `xs ++ ys`, a `P`-event (impossible in `ys`)
always precedes a `Q`-event (impossible in `xs`). -/
theorem split_index_lt (l xs ys : List Ev) (P Q : Ev → Prop)
    (hsplit : l = xs ++ ys)
    (hP : ∀ e ∈ ys, ¬ P e) (hQ : ∀ e ∈ xs, ¬ Q e)
    (i j : Nat) (ei ej : Ev)
    (hei : l[i]? = some ei) (hej : l[j]? = some ej)
    (hPi : P ei) (hQj : Q ej) : i < j := by
  subst hsplit
  have hi : i < xs.length := by
    by_contra hge
    push_neg at hge
    rw [List.getElem?_append_right hge] at hei
    exact hP ei (mem_of_idx _ _ _ hei) hPi
  have hj : xs.length ≤ j := by
    by_contra hlt
    push_neg at hlt
    rw [List.getElem?_append_left hlt] at hej
    exact hQ ej (mem_of_idx _ _ _ hej) hQj
  omega

/-- C9: in the startup trace of `main_loop`, the one-time `Subscribe`
call precedes every population event (unit load / property fetch), every
population event precedes every per-unit signal subscription, and every
per-unit subscription precedes the start of the WAMP component. -/
theorem c9_startup_order (catalog : List (String × String)) (i j : Nat) (ei ej : Ev)
    (hei : (main_loop_trace catalog)[i]? = some ei)
    (hej : (main_loop_trace catalog)[j]? = some ej) :
    (ei = Ev.lifecycleSub → ej.isPopulate = true → i < j) ∧
    (ei.isPopulate = true → ej.isUnitSub = true → i < j) ∧
    (ei.isUnitSub = true → ej = Ev.wampStart → i < j) := by
  refine ⟨fun h1 h2 => ?_, fun h1 h2 => ?_, fun h1 h2 => ?_⟩
  · refine split_index_lt (main_loop_trace catalog)
      [Ev.lifecycleSub]
      (refresh_units_trace catalog ++ refresh_props_trace (catalog.map Prod.fst)
        ++ subscribe_trace (catalog.map Prod.fst) ++ [Ev.wampStart])
      (fun e => e = Ev.lifecycleSub) (fun e => e.isPopulate = true)
      ?_ ?_ ?_ i j ei ej hei hej h1 h2
    · simp [main_loop_trace]
    · intro e he
      rcases List.mem_append.1 he with he | he
      · rcases List.mem_append.1 he with he | he
        · rcases List.mem_append.1 he with he | he
          · exact (isPopulate_shape e (mem_refresh_units_trace catalog e he)).1
          · exact (isPopulate_shape e (mem_refresh_props_trace _ e he)).1
        · exact (isUnitSub_shape e (mem_subscribe_trace _ e he)).1
      · simp only [List.mem_singleton] at he
        subst he
        simp
    · intro e he
      simp only [List.mem_singleton] at he
      subst he
      simp [Ev.isPopulate]
  · refine split_index_lt (main_loop_trace catalog)
      ([Ev.lifecycleSub] ++ refresh_units_trace catalog
        ++ refresh_props_trace (catalog.map Prod.fst))
      (subscribe_trace (catalog.map Prod.fst) ++ [Ev.wampStart])
      (fun e => e.isPopulate = true) (fun e => e.isUnitSub = true)
      ?_ ?_ ?_ i j ei ej hei hej h1 h2
    · simp [main_loop_trace, List.append_assoc]
    · intro e he
      rcases List.mem_append.1 he with he | he
      · simp [(isUnitSub_shape e (mem_subscribe_trace _ e he)).2.1]
      · simp only [List.mem_singleton] at he
        subst he
        simp [Ev.isPopulate]
    · intro e he
      rcases List.mem_append.1 he with he | he
      · rcases List.mem_append.1 he with he | he
        · simp only [List.mem_singleton] at he
          subst he
          simp [Ev.isUnitSub]
        · simp [(isPopulate_shape e (mem_refresh_units_trace catalog e he)).2.1]
      · simp [(isPopulate_shape e (mem_refresh_props_trace _ e he)).2.1]
  · refine split_index_lt (main_loop_trace catalog)
      ([Ev.lifecycleSub] ++ refresh_units_trace catalog
        ++ refresh_props_trace (catalog.map Prod.fst)
        ++ subscribe_trace (catalog.map Prod.fst))
      [Ev.wampStart]
      (fun e => e.isUnitSub = true) (fun e => e = Ev.wampStart)
      ?_ ?_ ?_ i j ei ej hei hej h1 h2
    · simp [main_loop_trace, List.append_assoc]
    · intro e he
      simp only [List.mem_singleton] at he
      subst he
      simp [Ev.isUnitSub]
    · intro e he
      rcases List.mem_append.1 he with he | he
      · rcases List.mem_append.1 he with he | he
        · rcases List.mem_append.1 he with he | he
          · simp only [List.mem_singleton] at he
            subst he
            simp
          · exact (isPopulate_shape e (mem_refresh_units_trace catalog e he)).2.2
        · exact (isPopulate_shape e (mem_refresh_props_trace _ e he)).2.2
      · exact (isUnitSub_shape e (mem_subscribe_trace _ e he)).2.2

/-- C9 witness: on the one-unit catalog, the `LoadUnit` population event
at index 1 follows the lifecycle subscription and precedes the per-unit
signal subscription at index 4. -/
theorem c9_witness :
    (main_loop_trace [("web", "nginx.service")])[1]? = some (Ev.loadUnit "web") ∧
    (main_loop_trace [("web", "nginx.service")])[4]? = some (Ev.subscribeUnit "web") ∧
    1 < 4 :=
  ⟨by rfl, by rfl,
   (c9_startup_order [("web", "nginx.service")] 1 4 (Ev.loadUnit "web")
      (Ev.subscribeUnit "web") (by rfl) (by rfl)).2.1 rfl rfl⟩

end Sjw
